import Mathlib

/-!
Shallow embedding of the session controller in
src/frontend/script.js (class VoiceBotApp) of the
AI-Sales-Assistant-Chatbot repository, together with theorems settling
the frozen claims about it.

Conventions of the embedding:
* JavaScript strings are Lean String; s.includes(t) is modelled by
  jsIncludes, s.toLowerCase() by String.toLower.
* Math.floor(Math.random() * k) is modelled by an arbitrary Nat draw
  (bounded by k where the bound matters); Math.random() > 0.8 by an
  arbitrary Bool draw.  Date.now() is an arbitrary Nat timestamp
  supplied by the caller.
* The chat-messages DOM container is a list of ChatElem, appended at
  the tail (appendChild); the notification feed is a list of
  Notification, prepended at the head (unshift).
* Asynchrony is resolved by passing the outcome of each awaited
  operation (remote call, stage of the report pipeline) as an explicit
  argument.
-/

set_option maxRecDepth 100000

namespace VoiceBotApp

/-- Does needle occur as a contiguous sublist of hay? -/
def charsContain : List Char → List Char → Bool
  | [], needle => needle.isEmpty
  | c :: t, needle => needle.isPrefixOf (c :: t) || charsContain t needle

/-- JavaScript hay.includes(needle): needle occurs as a contiguous
substring of hay. -/
def jsIncludes (hay needle : String) : Bool :=
  charsContain hay.data needle.data

/-- JavaScript s.toLowerCase(): lowercase every character. -/
def jsToLower (s : String) : String :=
  String.mk (s.data.map Char.toLower)

/-! ### Fallback responder (script.js lines 517-531, getDemoResponse) -/

/-- Rule-table response for inputs mentioning bike / under / lakh
(script.js line 521). -/
def bikesResponse : String :=
  "We have several excellent bikes under 1 lakh! Our popular models include: Honda CB Shine (₹72,000), Bajaj Pulsar 125 (₹94,000), and TVS Raider 125 (₹85,000). All come with great mileage and warranty. Would you like to know more about any specific model?"

/-- Rule-table response for inputs mentioning test ride / book
(script.js line 523). -/
def testRideResponse : String :=
  "I'd be happy to help you book a test ride! Please provide your name, contact number, and preferred date. We have slots available from Monday to Saturday, 10 AM to 6 PM. Which bike would you like to test ride?"

/-- Rule-table response for inputs mentioning emi / finance
(script.js line 525). -/
def emiResponse : String :=
  "We offer flexible EMI options starting from ₹2,500 per month! We work with all major banks and NBFCs. For a ₹1 lakh bike, you can get EMIs starting from ₹3,000 for 36 months. Lower interest rates available for salaried professionals. Shall I calculate EMI for a specific model?"

/-- Rule-table response for inputs mentioning service / maintenance
(script.js line 527). -/
def serviceResponse : String :=
  "We offer comprehensive service packages: Basic Service (₹800), Complete Service (₹1,500), and Premium Care (₹2,500). Includes engine oil change, brake check, tire inspection, and 20-point check. First service is free! Which package interests you?"

/-- Generic clarifying response when no rule matches
(script.js line 529). -/
def defaultResponse : String :=
  "Thank you for your interest! I can help you with bike information, pricing, test rides, EMI options, and service bookings. What would you like to know more about?"

/-- VoiceBotApp.getDemoResponse (script.js lines 517-531): lowercase
the message, then return the response of the first matching rule of
the fixed ordered rule table. -/
def getDemoResponse (message : String) : String :=
  let msg := jsToLower message
  if jsIncludes msg "bike" || jsIncludes msg "under" || jsIncludes msg "lakh" then
    bikesResponse
  else if jsIncludes msg "test ride" || jsIncludes msg "book" then
    testRideResponse
  else if jsIncludes msg "emi" || jsIncludes msg "finance" then
    emiResponse
  else if jsIncludes msg "service" || jsIncludes msg "maintenance" then
    serviceResponse
  else
    defaultResponse

/-! ### Chat transcript DOM (the chat-messages container) -/

/-- An element of the chat-messages container.  userMsg / aiMsg /
sysMsg are the message groups built by createMessageElement and
createSystemMessageElement; quickReplies is the block built by
addQuickReplies (lines 551-567); typingIndicator is the element with
id typingIndicator built by showTypingIndicator (lines 657-683). -/
inductive ChatElem
  | userMsg (text : String) (inputType : String)
  | aiMsg (text : String)
  | sysMsg (text : String) (msgType : String)
  | quickReplies (suggestions : List String)
  | typingIndicator
  deriving DecidableEq

def isTypingIndicator : ChatElem → Bool
  | .typingIndicator => true
  | _ => false

def isQuickReplies : ChatElem → Bool
  | .quickReplies _ => true
  | _ => false

def isAiMsg : ChatElem → Bool
  | .aiMsg _ => true
  | _ => false

def isUserMsg : ChatElem → Bool
  | .userMsg _ _ => true
  | _ => false

/-- Number of assistant message groups in the container. -/
def aiCount (dom : List ChatElem) : Nat := dom.countP isAiMsg

/-- Number of user message groups in the container. -/
def userCount (dom : List ChatElem) : Nat := dom.countP isUserMsg

/-- Number of quick-replies blocks in the container. -/
def qrCount (dom : List ChatElem) : Nat := dom.countP isQuickReplies

/-- VoiceBotApp.addUserMessage (lines 533-540): append a user message
group. -/
def addUserMessage (dom : List ChatElem) (message : String) (inputType : String) :
    List ChatElem :=
  dom ++ [.userMsg message inputType]

/-- VoiceBotApp.addAIMessage (lines 542-549): append an assistant
message group. -/
def addAIMessage (dom : List ChatElem) (message : String) : List ChatElem :=
  dom ++ [.aiMsg message]

/-- VoiceBotApp.addSystemMessage (lines 579-586): append a system
message group. -/
def addSystemMessage (dom : List ChatElem) (message msgType : String) : List ChatElem :=
  dom ++ [.sysMsg message msgType]

/-- VoiceBotApp.addQuickReplies (lines 551-567): append a
quick-replies block when the suggestion list is non-empty. -/
def addQuickReplies (dom : List ChatElem) (suggestions : List String) : List ChatElem :=
  if suggestions.isEmpty then dom else dom ++ [.quickReplies suggestions]

/-- VoiceBotApp.showTypingIndicator (lines 657-683): append the
composing indicator. -/
def showTypingIndicator (dom : List ChatElem) : List ChatElem :=
  dom ++ [.typingIndicator]

/-- VoiceBotApp.hideTypingIndicator (lines 685-690):
getElementById(typingIndicator) returns the first such element in
document order and it is removed. -/
def hideTypingIndicator : List ChatElem → List ChatElem
  | [] => []
  | e :: t => if isTypingIndicator e then t else e :: hideTypingIndicator t

/-! ### Message dispatch (processMessage, lines 457-515) -/

/-- The parsed JSON payload of a resolved /chat call.  A field absent
from the JSON is none (response) or [] (suggestions). -/
structure ChatPayload where
  response : Option String
  suggestions : List String
  deriving DecidableEq

/-- Outcome of the awaited remote call in processMessage: success
means fetch resolved and response.json() parsed; failure means fetch
rejected or json() threw, so the catch block (lines 506-514) runs. -/
inductive RemoteOutcome
  | success (payload : ChatPayload)
  | failure
  deriving DecidableEq

/-- VoiceBotApp.processMessage (lines 457-515), acting on the
chat-messages container.  On success the typing indicator is removed
and then, only if data.response is truthy (present and non-empty),
the assistant reply and optional quick replies are appended; on
failure the catch block removes the indicator and appends the
deterministic fallback reply. -/
def processMessage (message : String) (outcome : RemoteOutcome)
    (dom : List ChatElem) : List ChatElem :=
  let dom1 := showTypingIndicator dom
  match outcome with
  | .success p =>
    let dom2 := hideTypingIndicator dom1
    match p.response with
    | some r =>
      if r = "" then dom2
      else addQuickReplies (addAIMessage dom2 r) p.suggestions
    | none => dom2
  | .failure =>
    addAIMessage (hideTypingIndicator dom1) (getDemoResponse message)

/-- VoiceBotApp.sendTextMessage (lines 446-455): message stands for
the already-trimmed textInput.value; nothing happens when it is
empty, otherwise the user entry is appended and the message is
processed. -/
def sendTextMessage (message : String) (outcome : RemoteOutcome)
    (dom : List ChatElem) : List ChatElem :=
  if message = "" then dom
  else processMessage message outcome (addUserMessage dom message "text")

/-- VoiceBotApp.handleVoiceInput (lines 441-444). -/
def handleVoiceInput (transcript : String) (outcome : RemoteOutcome)
    (dom : List ChatElem) : List ChatElem :=
  processMessage transcript outcome (addUserMessage dom transcript "voice")

/-- VoiceBotApp.sendQuickReply (lines 569-577): remove every existing
quick-replies block, then send the suggestion as a user message. -/
def sendQuickReply (suggestion : String) (outcome : RemoteOutcome)
    (dom : List ChatElem) : List ChatElem :=
  let cleared := dom.filter (fun e => !isQuickReplies e)
  processMessage suggestion outcome (addUserMessage cleared suggestion "text")

/-! ### Notification feed (addNotification, lines 842-858) -/

/-- A notification record as built by addNotification: id is
Date.now() at posting time, read starts false.  The source field
named type is called msgType here. -/
structure Notification where
  id : Nat
  message : String
  msgType : String
  read : Bool
  deriving DecidableEq

/-- VoiceBotApp.addNotification (lines 842-858): build the record
with id = Date.now() and unshift it onto the feed (newest first).
now is the Date.now() value at the moment of the call. -/
def addNotification (now : Nat) (message msgType : String)
    (feed : List Notification) : List Notification :=
  { id := now, message := message, msgType := msgType, read := false } :: feed

/-- A sequence of addNotification calls, each with its own Date.now()
value, message and type, applied in post order. -/
def postAll (posts : List (Nat × String × String)) (feed : List Notification) :
    List Notification :=
  posts.foldl (fun f p => addNotification p.1 p.2.1 p.2.2 f) feed

/-! ### Voice capture (initSpeechRecognition lines 148-183,
startListening lines 405-414) -/

/-- Capture-related state: hasRecognition is whether this.recognition
is non-null, isListening mirrors this.isListening, chat is the
chat-messages container, feed the notification feed. -/
structure VoiceState where
  hasRecognition : Bool
  isListening : Bool
  chat : List ChatElem
  feed : List Notification
  deriving DecidableEq

/-- VoiceBotApp.initSpeechRecognition (lines 148-183): when the
platform supports speech recognition a recognizer is installed;
otherwise a single warning system message is added to the chat and
this.recognition stays null. -/
def initSpeechRecognition (supported : Bool) (s : VoiceState) : VoiceState :=
  if supported then { s with hasRecognition := true }
  else
    { s with
      chat := addSystemMessage s.chat "⚠️ Speech recognition not supported in this browser." "warning" }

/-- VoiceBotApp.startListening (lines 405-414): when this.recognition
is null the guard fails and nothing at all happens; when it is
non-null, recognition.start() is attempted and a synchronous throw is
caught and reported as an error system message (startThrows models
whether start() throws).  isListening is only set later by the
onstart event, not here. -/
def startListening (startThrows : Bool) (s : VoiceState) : VoiceState :=
  if s.hasRecognition then
    if startThrows then
      { s with chat := addSystemMessage s.chat "Could not start voice recognition." "error" }
    else s
  else s

/-! ### Voice commands (voiceCommands lines 71-82, setupVoiceCommands
lines 860-880, toggleTheme lines 904-917) -/

/-- The zero-argument actions bound to trigger phrases. -/
inductive VoiceAction
  | switchSection (sectionName : String)
  | generateBusinessReport
  | refreshAllData
  | toggleTheme
  | exportData
  | showVoiceHelp
  deriving DecidableEq

/-- VoiceBotApp.voiceCommands (lines 71-82) in declared (insertion)
order, which is the order Object.keys returns. -/
def voiceCommands : List (String × VoiceAction) :=
  [("show dashboard", .switchSection "dashboard"),
   ("open analytics", .switchSection "analytics"),
   ("show customers", .switchSection "customers"),
   ("check inventory", .switchSection "inventory"),
   ("generate report", .generateBusinessReport),
   ("refresh data", .refreshAllData),
   ("dark mode", .toggleTheme),
   ("light mode", .toggleTheme),
   ("export data", .exportData),
   ("help me", .showVoiceHelp)]

/-- What the onresult handler installed by setupVoiceCommands does
with a recognized utterance: execute the first matching command (with
a success notification) or forward the utterance to handleVoiceInput. -/
inductive Dispatch
  | command (phrase : String) (action : VoiceAction)
  | forward (text : String)
  deriving DecidableEq

/-- The onresult handler installed by setupVoiceCommands (lines
860-880): lowercase the transcript, look for the first declared
command whose phrase is a substring of it; if found execute it,
otherwise forward the (lowercased) transcript to handleVoiceInput. -/
def onVoiceResult (raw : String) : Dispatch :=
  let transcript := jsToLower raw
  match voiceCommands.find? (fun p => jsIncludes transcript p.1) with
  | some p => .command p.1 p.2
  | none => .forward transcript

/-- Theme-related state for toggleTheme. -/
structure ThemeState where
  isDarkMode : Bool
  feed : List Notification
  deriving DecidableEq

/-- VoiceBotApp.toggleTheme (lines 904-917): flip isDarkMode and post
an info notification naming the new mode. -/
def toggleTheme (now : Nat) (s : ThemeState) : ThemeState :=
  let dark := !s.isDarkMode
  { isDarkMode := dark,
    feed := addNotification now
      ("🎨 Switched to " ++ (if dark then "dark" else "light") ++ " mode") "info" s.feed }

/-! ### Real-time metrics (constructor lines 51-56,
startRealTimeUpdates lines 786-798, updateRealTimeMetrics lines
1039-1049) -/

/-- this.realTimeData.  Values are integers in the source (counters
and a percentage). -/
structure RealTimeData where
  conversations : Int
  leads : Int
  revenue : Int
  satisfaction : Int
  deriving DecidableEq

/-- Initial this.realTimeData from the constructor (lines 51-56). -/
def initialRealTimeData : RealTimeData :=
  { conversations := 1247, leads := 89, revenue := 52400, satisfaction := 96 }

/-- Body of the 30-second interval in startRealTimeUpdates (lines
788-791): conversations += floor(random*3), leads += floor(random*2),
revenue += floor(random*1000); satisfaction untouched.  dc dl dr are
the three floor(random*k) draws, hence arbitrary non-negative. -/
def realTimeUpdateTick (dc dl dr : Nat) (d : RealTimeData) : RealTimeData :=
  { d with conversations := d.conversations + dc,
           leads := d.leads + dl,
           revenue := d.revenue + dr }

/-- VoiceBotApp.updateRealTimeMetrics (lines 1039-1049):
conversations += floor(random*5), leads += floor(random*2), revenue
+= floor(random*2000); satisfaction untouched. -/
def updateRealTimeMetrics (dc dl dr : Nat) (d : RealTimeData) : RealTimeData :=
  { d with conversations := d.conversations + dc,
           leads := d.leads + dl,
           revenue := d.revenue + dr }

/-- A run of refresh ticks (either loop) applied from a starting
snapshot. -/
def runTicks (ticks : List (Nat × Nat × Nat)) (d : RealTimeData) : RealTimeData :=
  ticks.foldl (fun acc t => updateRealTimeMetrics t.1 t.2.1 t.2.2 acc) d

/-! ### Report compilation (generateAdvancedPDFReport lines
1224-1283, addAnalyticsPage lines 1373-1420) -/

/-- Outcomes of the awaited stages of generateAdvancedPDFReport.  The
three data fetches catch internally and fall back to mock data, so
they cannot throw into the outer catch.  chartCaptureFails records,
per chart, whether the html2canvas call inside addAnalyticsPage
throws; each of those calls is wrapped in its own try/catch (lines
1387-1398) that only logs a warning.  The remaining flags record
whether the corresponding awaited stage throws into the outer
catch. -/
structure ReportOutcome where
  chartCaptureFails : List Bool
  coverThrows : Bool
  analyticsPageThrows : Bool
  customersPageThrows : Bool
  inventoryPageThrows : Bool
  insightsPageThrows : Bool
  saveThrows : Bool
  deriving DecidableEq

/-- Observable result of one generateAdvancedPDFReport run:
artifactSaved is whether pdf.save executed, progressVisible whether
the progress overlay is still mounted afterwards, feed the
notifications posted by this run (newest first). -/
structure ReportResult where
  artifactSaved : Bool
  progressVisible : Bool
  feed : List Notification
  deriving DecidableEq

/-- The catch block of generateAdvancedPDFReport (lines 1278-1282):
hide the progress overlay and post one error notification; pdf.save
was not reached (or itself threw), so no artifact is emitted. -/
def reportAborted (now : Nat) : ReportResult :=
  { artifactSaved := false, progressVisible := false,
    feed := addNotification now "❌ PDF generation failed. Please try again." "error" [] }

/-- VoiceBotApp.generateAdvancedPDFReport (lines 1224-1283), stage by
stage in source order.  Chart-capture failures inside
addAnalyticsPage are swallowed by the inner try/catch and do not
affect control flow; any stage that throws lands in the outer catch
(reportAborted); otherwise pdf.save runs and a success notification
is posted after the overlay is removed. -/
def generateAdvancedPDFReport (now : Nat) (o : ReportOutcome) : ReportResult :=
  if o.coverThrows then reportAborted now
  else if o.analyticsPageThrows then reportAborted now
  else if o.customersPageThrows then reportAborted now
  else if o.inventoryPageThrows then reportAborted now
  else if o.insightsPageThrows then reportAborted now
  else if o.saveThrows then reportAborted now
  else
    { artifactSaved := true, progressVisible := false,
      feed := addNotification now
        "📊 Advanced PDF report with charts generated successfully!" "success" [] }

/-! ### Mock data generators (generateMockInventory lines 1663-1674,
generateMockCustomers lines 1676-1690) -/

/-- An inventory item as built by generateMockInventory.  lastUpdated
is the new Date().toISOString() timestamp, modelled as a Nat. -/
structure InventoryItem where
  id : Nat
  model : String
  brand : String
  stock : Nat
  price : Nat
  status : String
  lastUpdated : Nat
  deriving DecidableEq

/-- The brands array of generateMockInventory (line 1664). -/
def mockBrands : List String := ["Honda", "TVS", "Bajaj", "Yamaha", "Hero"]

/-- VoiceBotApp.generateMockInventory (lines 1663-1674).  stockDraw i
models floor(random*50) for item i, priceDraw i models
floor(random*100000), lowStockDraw i models random() > 0.8, now the
shared timestamp. -/
def generateMockInventory (now : Nat) (stockDraw priceDraw : Nat → Nat)
    (lowStockDraw : Nat → Bool) : List InventoryItem :=
  (List.range 20).map (fun i =>
    { id := i + 1,
      model := "Model " ++ String.mk [Char.ofNat (65 + i % 26)] ++ toString (i + 1),
      brand := mockBrands.getD (i % mockBrands.length) "",
      stock := stockDraw i + 10,
      price := priceDraw i + 50000,
      status := if lowStockDraw i then "Low Stock" else "In Stock",
      lastUpdated := now })

/-- A customer record as built by generateMockCustomers.  lastContact
is the randomized date, modelled as the draw itself. -/
structure Customer where
  id : Nat
  name : String
  email : String
  phone : String
  location : String
  avatar : String
  status : String
  lastContact : Nat
  purchaseHistory : Nat
  value : Nat
  deriving DecidableEq

/-- The names array of generateMockCustomers (line 1677). -/
def mockNames : List String :=
  ["Rajesh Kumar", "Priya Sharma", "Amit Patel", "Sneha Singh", "Vikram Rao"]

/-- The locations array of generateMockCustomers (line 1683). -/
def mockLocations : List String :=
  ["Mumbai, Maharashtra", "Delhi, Delhi", "Bangalore, Karnataka"]

/-- The status array shared by the customer generators (line 1685). -/
def customerStatuses : List String := ["Prospect", "Lead", "Customer", "VIP"]

/-- VoiceBotApp.generateMockCustomers (lines 1676-1690).  phoneDraw i
models floor(random*9e9) for customer i, statusDraw i models
floor(random*4), contactDraw i the randomized last-contact date,
purchaseDraw i floor(random*3), valueDraw i floor(random*500000). -/
def generateMockCustomers (phoneDraw statusDraw contactDraw purchaseDraw valueDraw :
    Nat → Nat) : List Customer :=
  (List.range 15).map (fun i =>
    { id := i + 1,
      name := mockNames.getD (i % mockNames.length) "" ++ " " ++ toString (i + 1),
      email := "customer" ++ toString (i + 1) ++ "@example.com",
      phone := "+91 " ++ toString (phoneDraw i + 1000000000),
      location := mockLocations.getD (i % 3) "",
      avatar := "https://api.dicebear.com/7.x/avataaars/svg?seed=" ++ toString i,
      status := customerStatuses.getD (statusDraw i) "",
      lastContact := contactDraw i,
      purchaseHistory := purchaseDraw i,
      value := valueDraw i + 50000 })

end VoiceBotApp

/-! ## Theorems -/

namespace VoiceBotApp

/-- Removing the typing indicator never touches quick-replies blocks. -/
theorem qrCount_hideTypingIndicator (l : List ChatElem) :
    qrCount (hideTypingIndicator l) = qrCount l := by
  simp only [qrCount]
  induction l with
  | nil => rfl
  | cons e t ih =>
    cases e <;>
      simp [hideTypingIndicator, isTypingIndicator, List.countP_cons, isQuickReplies, ih]

/-- Appending a user message group never adds a quick-replies block. -/
theorem qrCount_addUserMessage (l : List ChatElem) (m t : String) :
    qrCount (addUserMessage l m t) = qrCount l := by
  simp [addUserMessage, qrCount, List.countP_append, List.countP_cons, isQuickReplies]

/-- Appending an assistant message group never adds a quick-replies
block. -/
theorem qrCount_addAIMessage (l : List ChatElem) (m : String) :
    qrCount (addAIMessage l m) = qrCount l := by
  simp [addAIMessage, qrCount, List.countP_append, List.countP_cons, isQuickReplies]

/-- Appending the typing indicator never adds a quick-replies block. -/
theorem qrCount_showTypingIndicator (l : List ChatElem) :
    qrCount (showTypingIndicator l) = qrCount l := by
  simp [showTypingIndicator, qrCount, List.countP_append, List.countP_cons, isQuickReplies]

/-- The removal loop of sendQuickReply leaves no quick-replies block. -/
theorem qrCount_clear (l : List ChatElem) :
    qrCount (l.filter (fun e => !isQuickReplies e)) = 0 := by
  induction l with
  | nil => rfl
  | cons e t ih =>
    by_cases h : isQuickReplies e = true <;>
      simp [List.filter_cons, h, qrCount, List.countP_cons, ih]

/-- qrCount distributes over container appends. -/
theorem qrCount_append (l l2 : List ChatElem) :
    qrCount (l ++ l2) = qrCount l + qrCount l2 := by
  simp [qrCount, List.countP_append]

/-- Claim C2 counterexample: the input "book a bike" contains the
trigger "book", yet with the remote call failing the fallback is the
bikes rule response (the bike/under/lakh rule is checked first), not
the test-ride-booking message the claim requires. -/
theorem getDemoResponse_book_bike_counterexample :
    jsIncludes (jsToLower "book a bike") "book" = true ∧
    getDemoResponse "book a bike" = bikesResponse ∧
    bikesResponse ≠ testRideResponse := by decide

/-- Claim C2 (amended): for every input containing "test ride" or
"book" (case-insensitively) and containing none of the
earlier-checked triggers "bike", "under", "lakh", the fallback is the
fixed test-ride-booking message; and the fallback depends only on the
lowercased input, so equal inputs (even equal up to case) always get
the identical fallback text. -/
theorem getDemoResponse_testRide_rule (m : String)
    (hmatch : jsIncludes (jsToLower m) "test ride" = true ∨
      jsIncludes (jsToLower m) "book" = true)
    (hbike : jsIncludes (jsToLower m) "bike" = false)
    (hunder : jsIncludes (jsToLower m) "under" = false)
    (hlakh : jsIncludes (jsToLower m) "lakh" = false) :
    getDemoResponse m = testRideResponse ∧
    ∀ m2 : String, jsToLower m2 = jsToLower m → getDemoResponse m2 = getDemoResponse m := by
  constructor
  · have h2 : (jsIncludes (jsToLower m) "test ride" || jsIncludes (jsToLower m) "book") = true := by
      rcases hmatch with h | h <;> simp [h]
    simp [getDemoResponse, hbike, hunder, hlakh, h2]
  · intro m2 hm2
    simp only [getDemoResponse]
    rw [hm2]

/-- Witness for the amended C2 theorem at the spec's own example
input. -/
theorem getDemoResponse_testRide_rule_witness :
    getDemoResponse "I want to book a test ride" = testRideResponse :=
  (getDemoResponse_testRide_rule "I want to book a test ride"
    (Or.inr (by decide)) (by decide) (by decide) (by decide)).1

/-- Claim C1: evaluation of the dispatch pipeline at the diverging
input.  A send whose remote call succeeds but whose parsed payload
has no response field appends no assistant entry at all (the user
turn dangles), while a failed remote call and a success with a
response field each append exactly one assistant entry. -/
theorem processMessage_missing_response_drops_turn :
    sendTextMessage "hello" (RemoteOutcome.success { response := none, suggestions := [] }) [] =
      [ChatElem.userMsg "hello" "text"] ∧
    aiCount (sendTextMessage "hello"
      (RemoteOutcome.success { response := none, suggestions := [] }) []) = 0 ∧
    userCount (sendTextMessage "hello"
      (RemoteOutcome.success { response := none, suggestions := [] }) []) = 1 ∧
    aiCount (sendTextMessage "hello" RemoteOutcome.failure []) = 1 ∧
    aiCount (sendTextMessage "hello"
      (RemoteOutcome.success { response := some "Hi there!", suggestions := [] }) []) = 1 := by
  decide

/-- Claim C8 counterexample: a typed message leaves the existing
quick-replies block in place; after sendTextMessage the container
still holds the stale block, now followed by the new user entry. -/
theorem quickReplies_persist_on_typed_message :
    sendTextMessage "tell me more" RemoteOutcome.failure
        [ChatElem.aiMsg "Welcome!", ChatElem.quickReplies ["EMI options", "Book a test ride"]] =
      [ChatElem.aiMsg "Welcome!", ChatElem.quickReplies ["EMI options", "Book a test ride"],
       ChatElem.userMsg "tell me more" "text", ChatElem.aiMsg defaultResponse] ∧
    qrCount (sendTextMessage "tell me more" RemoteOutcome.failure
      [ChatElem.aiMsg "Welcome!", ChatElem.quickReplies ["EMI options", "Book a test ride"]]) = 1 := by
  decide

/-- Claim C8 (amended): clicking a quick reply removes every existing
quick-replies block before the user entry is appended, but typing a
new message never removes one — the count of quick-replies blocks is
preserved across a typed turn. -/
theorem quickReplies_cleared_only_on_click (dom : List ChatElem) (s : String) :
    qrCount (sendQuickReply s RemoteOutcome.failure dom) = 0 ∧
    qrCount (sendTextMessage s RemoteOutcome.failure dom) = qrCount dom := by
  constructor
  · simp only [sendQuickReply, processMessage]
    rw [qrCount_addAIMessage, qrCount_hideTypingIndicator, qrCount_showTypingIndicator,
      qrCount_addUserMessage, qrCount_clear]
  · by_cases h : s = ""
    · simp [sendTextMessage, h]
    · simp only [sendTextMessage, h, if_neg, ite_false, processMessage]
      rw [qrCount_addAIMessage, qrCount_hideTypingIndicator, qrCount_showTypingIndicator,
        qrCount_addUserMessage]

/-- Witness for the amended C8 theorem at a container holding one
stale quick-replies block. -/
theorem quickReplies_cleared_only_on_click_witness :
    qrCount (sendQuickReply "EMI options" RemoteOutcome.failure
      [ChatElem.quickReplies ["EMI options"]]) = 0 ∧
    qrCount (sendTextMessage "EMI options" RemoteOutcome.failure
        [ChatElem.quickReplies ["EMI options"]]) =
      qrCount [ChatElem.quickReplies ["EMI options"]] :=
  quickReplies_cleared_only_on_click [ChatElem.quickReplies ["EMI options"]] "EMI options"

/-- Refresh ticks never touch the satisfaction field. -/
theorem runTicks_satisfaction (ticks : List (Nat × Nat × Nat)) (d : RealTimeData) :
    (runTicks ticks d).satisfaction = d.satisfaction := by
  induction ticks generalizing d with
  | nil => rfl
  | cons t rest ih =>
    simp only [runTicks, List.foldl_cons] at ih ⊢
    rw [ih]
    rfl

/-- Claim C3: both refresh tick bodies only add non-negative deltas
to conversations, leads and revenue and never touch satisfaction, so
conversations and leads are non-decreasing across consecutive ticks,
no field that starts non-negative ever becomes negative, and the
satisfaction percentage stays inside [0,100]; from the initial
snapshot it is constantly 96 over any run of ticks. -/
theorem realTimeMetrics_invariants (d : RealTimeData) (dc dl dr : Nat)
    (ticks : List (Nat × Nat × Nat))
    (hsat0 : 0 ≤ d.satisfaction) (hsat1 : d.satisfaction ≤ 100)
    (hc : 0 ≤ d.conversations) (hl : 0 ≤ d.leads) (hr : 0 ≤ d.revenue) :
    d.conversations ≤ (updateRealTimeMetrics dc dl dr d).conversations ∧
    d.leads ≤ (updateRealTimeMetrics dc dl dr d).leads ∧
    (updateRealTimeMetrics dc dl dr d).satisfaction = d.satisfaction ∧
    d.conversations ≤ (realTimeUpdateTick dc dl dr d).conversations ∧
    d.leads ≤ (realTimeUpdateTick dc dl dr d).leads ∧
    (realTimeUpdateTick dc dl dr d).satisfaction = d.satisfaction ∧
    0 ≤ (updateRealTimeMetrics dc dl dr d).satisfaction ∧
    (updateRealTimeMetrics dc dl dr d).satisfaction ≤ 100 ∧
    0 ≤ (updateRealTimeMetrics dc dl dr d).conversations ∧
    0 ≤ (updateRealTimeMetrics dc dl dr d).leads ∧
    0 ≤ (updateRealTimeMetrics dc dl dr d).revenue ∧
    (runTicks ticks initialRealTimeData).satisfaction = 96 := by
  refine ⟨?_, ?_, ?_, ?_, ?_, ?_, ?_, ?_, ?_, ?_, ?_, ?_⟩ <;>
    simp [updateRealTimeMetrics, realTimeUpdateTick, runTicks_satisfaction,
      initialRealTimeData] <;> omega

/-- Witness for the C3 invariants at the initial snapshot with
concrete deltas. -/
theorem realTimeMetrics_invariants_witness :
    initialRealTimeData.conversations ≤
      (updateRealTimeMetrics 2 1 700 initialRealTimeData).conversations ∧
    initialRealTimeData.leads ≤ (updateRealTimeMetrics 2 1 700 initialRealTimeData).leads ∧
    (updateRealTimeMetrics 2 1 700 initialRealTimeData).satisfaction =
      initialRealTimeData.satisfaction ∧
    initialRealTimeData.conversations ≤
      (realTimeUpdateTick 2 1 700 initialRealTimeData).conversations ∧
    initialRealTimeData.leads ≤ (realTimeUpdateTick 2 1 700 initialRealTimeData).leads ∧
    (realTimeUpdateTick 2 1 700 initialRealTimeData).satisfaction =
      initialRealTimeData.satisfaction ∧
    0 ≤ (updateRealTimeMetrics 2 1 700 initialRealTimeData).satisfaction ∧
    (updateRealTimeMetrics 2 1 700 initialRealTimeData).satisfaction ≤ 100 ∧
    0 ≤ (updateRealTimeMetrics 2 1 700 initialRealTimeData).conversations ∧
    0 ≤ (updateRealTimeMetrics 2 1 700 initialRealTimeData).leads ∧
    0 ≤ (updateRealTimeMetrics 2 1 700 initialRealTimeData).revenue ∧
    (runTicks [(4, 1, 1500), (0, 0, 0)] initialRealTimeData).satisfaction = 96 :=
  realTimeMetrics_invariants initialRealTimeData 2 1 700 [(4, 1, 1500), (0, 0, 0)]
    (by decide) (by decide) (by decide) (by decide) (by decide)

/-- postAll builds the reverse of the post order on top of the
existing feed. -/
theorem postAll_eq (posts : List (Nat × String × String)) (feed : List Notification) :
    postAll posts feed =
      (posts.map (fun p => Notification.mk p.1 p.2.1 p.2.2 false)).reverse ++ feed := by
  induction posts generalizing feed with
  | nil => rfl
  | cons p rest ih =>
    simp only [postAll, List.foldl_cons, List.map_cons, List.reverse_cons] at ih ⊢
    rw [ih]
    simp [addNotification]

/-- Claim C4 counterexample: the two notifications that
setupNotificationSystem posts back to back, when Date.now() returns
the same millisecond 1000 for both, receive equal ids — the id
sequence in post order is [1000, 1000], which is not strictly
increasing. -/
theorem notification_ids_collide :
    ((postAll [(1000, "🎉 Advanced AI features activated!", "success"),
               (1000, "📊 Real-time monitoring started", "info")] []).reverse.map
      Notification.id) = [1000, 1000] ∧
    ¬ List.Chain' (fun a b => a < b)
      ((postAll [(1000, "🎉 Advanced AI features activated!", "success"),
                 (1000, "📊 Real-time monitoring started", "info")] []).reverse.map
        Notification.id) := by
  constructor
  · rfl
  · intro h
    have h2 : List.Chain' (fun a b => a < b) ([1000, 1000] : List Nat) := h
    have h3 := (List.chain'_cons.mp h2).1
    omega

/-- Claim C4 (amended): ids equal the posting timestamps, so they are
non-decreasing in post order whenever the clock is non-decreasing
(they are not strictly increasing: posts within one millisecond share
an id), and reading the feed always yields the posted notifications
in reverse post order (newest first). -/
theorem notificationFeed_order (posts : List (Nat × String × String))
    (hmono : List.Chain' (fun a b => a ≤ b) (posts.map Prod.fst)) :
    postAll posts [] =
      (posts.map (fun p => Notification.mk p.1 p.2.1 p.2.2 false)).reverse ∧
    List.Chain' (fun a b => a ≤ b) (((postAll posts []).reverse).map Notification.id) := by
  have h1 : postAll posts [] =
      (posts.map (fun p => Notification.mk p.1 p.2.1 p.2.2 false)).reverse := by
    simpa using postAll_eq posts []
  refine ⟨h1, ?_⟩
  rw [h1, List.reverse_reverse, List.map_map]
  simpa [Function.comp] using hmono

/-- Witness for the amended C4 theorem on a two-post sequence with a
running clock. -/
theorem notificationFeed_order_witness :
    postAll [(1000, "🎉 Advanced AI features activated!", "success"),
             (1001, "📊 Real-time monitoring started", "info")] [] =
      ([(1000, "🎉 Advanced AI features activated!", "success"),
        (1001, "📊 Real-time monitoring started", "info")].map
        (fun p => Notification.mk p.1 p.2.1 p.2.2 false)).reverse ∧
    List.Chain' (fun a b => a ≤ b)
      (((postAll [(1000, "🎉 Advanced AI features activated!", "success"),
                  (1001, "📊 Real-time monitoring started", "info")] []).reverse).map
        Notification.id) :=
  notificationFeed_order
    [(1000, "🎉 Advanced AI features activated!", "success"),
     (1001, "📊 Real-time monitoring started", "info")]
    (by simp [List.chain'_cons])

/-- Claim C5 counterexample: with no recognizer installed,
startListening leaves the whole state untouched — in particular it
posts zero notifications and zero chat messages, not the one warning
notification the claim requires. -/
theorem startListening_unavailable_counterexample :
    startListening false
        { hasRecognition := false, isListening := false, chat := [], feed := [] } =
      { hasRecognition := false, isListening := false, chat := [], feed := [] } ∧
    ¬ ((startListening false
        { hasRecognition := false, isListening := false, chat := [], feed := [] }).feed.countP
        (fun n => n.msgType = "warning") = 1) := by
  decide

/-- Claim C5 (amended): when the platform has no speech capture,
startListening is a complete no-op — Idle is preserved, nothing is
thrown (the function is total) and no notification or message is
produced; the single unavailability warning is instead emitted once
at initialization time by initSpeechRecognition, as a warning system
chat message, with this.recognition left null. -/
theorem startListening_unavailable_noop (s : VoiceState) (b : Bool)
    (h : s.hasRecognition = false) :
    startListening b s = s ∧
    (initSpeechRecognition false s).chat =
      s.chat ++ [ChatElem.sysMsg "⚠️ Speech recognition not supported in this browser." "warning"] ∧
    (initSpeechRecognition false s).hasRecognition = false ∧
    (initSpeechRecognition false s).isListening = s.isListening ∧
    (initSpeechRecognition false s).feed = s.feed := by
  refine ⟨?_, ?_, ?_, ?_, ?_⟩
  · simp [startListening, h]
  · simp [initSpeechRecognition, addSystemMessage]
  · simp [initSpeechRecognition, h]
  · simp [initSpeechRecognition]
  · simp [initSpeechRecognition]

/-- Witness for the amended C5 theorem at the empty starting state. -/
theorem startListening_unavailable_noop_witness :
    startListening true
        { hasRecognition := false, isListening := false, chat := [], feed := [] } =
      { hasRecognition := false, isListening := false, chat := [], feed := [] } ∧
    (initSpeechRecognition false
        { hasRecognition := false, isListening := false, chat := [], feed := [] }).chat =
      [] ++ [ChatElem.sysMsg "⚠️ Speech recognition not supported in this browser." "warning"] ∧
    (initSpeechRecognition false
        { hasRecognition := false, isListening := false, chat := [], feed := [] }).hasRecognition
      = false ∧
    (initSpeechRecognition false
        { hasRecognition := false, isListening := false, chat := [], feed := [] }).isListening
      = false ∧
    (initSpeechRecognition false
        { hasRecognition := false, isListening := false, chat := [], feed := [] }).feed = [] :=
  startListening_unavailable_noop
    { hasRecognition := false, isListening := false, chat := [], feed := [] } true rfl

/-- find? returns the first element satisfying the predicate: the
list splits at the found element and everything before it fails the
predicate. -/
theorem find?_eq_some_split {α : Type} (p : α → Bool) :
    ∀ (l : List α) (a : α), l.find? p = some a →
      p a = true ∧ ∃ l₁ l₂, l = l₁ ++ a :: l₂ ∧ ∀ b ∈ l₁, p b = false := by
  intro l
  induction l with
  | nil => intro a h; simp at h
  | cons x t ih =>
    intro a h
    by_cases hx : p x = true
    · rw [List.find?_cons_of_pos _ hx] at h
      obtain rfl : x = a := by injection h
      exact ⟨hx, [], t, rfl, by intro b hb; simp at hb⟩
    · rw [List.find?_cons_of_neg _ (by simpa using hx)] at h
      obtain ⟨hp, l₁, l₂, rfl, hall⟩ := ih a h
      refine ⟨hp, x :: l₁, l₂, rfl, ?_⟩
      intro b hb
      rcases List.mem_cons.mp hb with rfl | hb2
      · simpa using hx
      · exact hall b hb2

/-- Claim C6 counterexample: an utterance with no matching trigger is
forwarded, but in lowercased form, not unchanged — "How ARE you" is
forwarded as "how are you". -/
theorem onVoiceResult_forwards_lowercased :
    onVoiceResult "How ARE you" = Dispatch.forward "how are you" ∧
    ("how are you" : String) ≠ "How ARE you" := by decide

/-- Claim C6 (amended): the recognizer lowercases the utterance and
matches it by substring against the declared command order; the first
declared trigger contained in the utterance wins and is executed
rather than forwarded ("please show dashboard now" runs the action of
"show dashboard", and declared order beats utterance order), every
executed command is a declared command contained in the lowercased
utterance with no earlier declared trigger matching, and a
non-matching utterance is forwarded in lowercased form (not
unchanged). -/
theorem voiceCommand_first_match :
    onVoiceResult "please show dashboard now" =
      Dispatch.command "show dashboard" (VoiceAction.switchSection "dashboard") ∧
    onVoiceResult "please export data then refresh data" =
      Dispatch.command "refresh data" VoiceAction.refreshAllData ∧
    (∀ raw phrase act, onVoiceResult raw = Dispatch.command phrase act →
      jsIncludes (jsToLower raw) phrase = true ∧
      ∃ pre post, voiceCommands = pre ++ (phrase, act) :: post ∧
        ∀ q ∈ pre, jsIncludes (jsToLower raw) q.1 = false) ∧
    (∀ raw, voiceCommands.find? (fun p => jsIncludes (jsToLower raw) p.1) = none →
      onVoiceResult raw = Dispatch.forward (jsToLower raw)) := by
  refine ⟨by decide, by decide, ?_, ?_⟩
  · intro raw phrase act h
    simp only [onVoiceResult] at h
    rcases hfind : voiceCommands.find? (fun p => jsIncludes (jsToLower raw) p.1) with _ | p
    · rw [hfind] at h
      simp at h
    · rw [hfind] at h
      simp only at h
      obtain ⟨h1, h2⟩ : p.1 = phrase ∧ p.2 = act := by
        injection h with h1 h2
        exact ⟨h1, h2⟩
      obtain ⟨hp, l₁, l₂, hsplit, hall⟩ := find?_eq_some_split _ voiceCommands p hfind
      refine ⟨by rw [← h1]; exact hp, l₁, l₂, ?_, hall⟩
      rw [hsplit, ← h1, ← h2]
  · intro raw h
    simp only [onVoiceResult]
    rw [h]

/-- Witness for the amended C6 theorem: the universally quantified
parts applied at the spec's example utterance and at a non-matching
utterance. -/
theorem voiceCommand_first_match_witness :
    (jsIncludes (jsToLower "please show dashboard now") "show dashboard" = true ∧
      ∃ pre post,
        voiceCommands = pre ++ ("show dashboard", VoiceAction.switchSection "dashboard") :: post ∧
        ∀ q ∈ pre, jsIncludes (jsToLower "please show dashboard now") q.1 = false) ∧
    onVoiceResult "hello there" = Dispatch.forward (jsToLower "hello there") :=
  ⟨voiceCommand_first_match.2.2.1 "please show dashboard now" "show dashboard"
      (VoiceAction.switchSection "dashboard") (by decide),
    voiceCommand_first_match.2.2.2 "hello there" (by decide)⟩

/-- generateAdvancedPDFReport reduces to a single test: any throwing
stage lands in the outer catch, otherwise the artifact is saved. -/
theorem generateAdvancedPDFReport_eq (now : Nat) (o : ReportOutcome) :
    generateAdvancedPDFReport now o =
      if o.coverThrows || o.analyticsPageThrows || o.customersPageThrows ||
          o.inventoryPageThrows || o.insightsPageThrows || o.saveThrows then
        reportAborted now
      else
        { artifactSaved := true, progressVisible := false,
          feed := addNotification now
            "📊 Advanced PDF report with charts generated successfully!" "success" [] } := by
  obtain ⟨cf, c1, c2, c3, c4, c5, c6⟩ := o
  cases c1 <;> cases c2 <;> cases c3 <;> cases c4 <;> cases c5 <;> cases c6 <;>
    simp [generateAdvancedPDFReport]

/-- Claim C7 counterexample: a run in which every chart capture fails
but no stage throws still saves the artifact and posts exactly one
success notification and no error notification — chart-capture
failures are swallowed by the inner try/catch, they do not abort
compilation. -/
theorem report_chart_failure_still_saves :
    generateAdvancedPDFReport 0
        { chartCaptureFails := [true, true, true, true], coverThrows := false,
          analyticsPageThrows := false, customersPageThrows := false,
          inventoryPageThrows := false, insightsPageThrows := false,
          saveThrows := false } =
      { artifactSaved := true, progressVisible := false,
        feed := [{ id := 0,
                   message := "📊 Advanced PDF report with charts generated successfully!",
                   msgType := "success", read := false }] } ∧
    (generateAdvancedPDFReport 0
        { chartCaptureFails := [true, true, true, true], coverThrows := false,
          analyticsPageThrows := false, customersPageThrows := false,
          inventoryPageThrows := false, insightsPageThrows := false,
          saveThrows := false }).feed.countP (fun n => n.msgType = "error") = 0 := by
  decide

/-- Claim C7 (amended): chart-capture failures are swallowed per
chart and the compilation continues to a saved artifact with one
success notification; a throw in any awaited stage (cover, analytics,
customers, inventory, insights page or pdf.save) aborts the run with
no artifact, the progress overlay torn down and exactly one error
notification; a successful run emits the artifact, tears down the
overlay and posts exactly one success notification. -/
theorem report_pipeline_failure_semantics (now : Nat) (o : ReportOutcome)
    (hthrow : (o.coverThrows || o.analyticsPageThrows || o.customersPageThrows ||
      o.inventoryPageThrows || o.insightsPageThrows || o.saveThrows) = true)
    (o2 : ReportOutcome)
    (hok : (o2.coverThrows || o2.analyticsPageThrows || o2.customersPageThrows ||
      o2.inventoryPageThrows || o2.insightsPageThrows || o2.saveThrows) = false) :
    generateAdvancedPDFReport now o = reportAborted now ∧
    (generateAdvancedPDFReport now o).artifactSaved = false ∧
    (generateAdvancedPDFReport now o).progressVisible = false ∧
    (generateAdvancedPDFReport now o).feed.countP (fun n => n.msgType = "error") = 1 ∧
    (generateAdvancedPDFReport now o2).artifactSaved = true ∧
    (generateAdvancedPDFReport now o2).progressVisible = false ∧
    (generateAdvancedPDFReport now o2).feed.countP (fun n => n.msgType = "success") = 1 := by
  rw [generateAdvancedPDFReport_eq now o, generateAdvancedPDFReport_eq now o2, hthrow, hok]
  simp [reportAborted, addNotification, List.countP_cons]

/-- Witness for the amended C7 theorem: a cover-page throw aborts; an
all-clear run (even with every chart capture failing) saves. -/
theorem report_pipeline_failure_semantics_witness :
    generateAdvancedPDFReport 7
        { chartCaptureFails := [], coverThrows := true, analyticsPageThrows := false,
          customersPageThrows := false, inventoryPageThrows := false,
          insightsPageThrows := false, saveThrows := false } = reportAborted 7 ∧
    (generateAdvancedPDFReport 7
        { chartCaptureFails := [], coverThrows := true, analyticsPageThrows := false,
          customersPageThrows := false, inventoryPageThrows := false,
          insightsPageThrows := false, saveThrows := false }).artifactSaved = false ∧
    (generateAdvancedPDFReport 7
        { chartCaptureFails := [], coverThrows := true, analyticsPageThrows := false,
          customersPageThrows := false, inventoryPageThrows := false,
          insightsPageThrows := false, saveThrows := false }).progressVisible = false ∧
    (generateAdvancedPDFReport 7
        { chartCaptureFails := [], coverThrows := true, analyticsPageThrows := false,
          customersPageThrows := false, inventoryPageThrows := false,
          insightsPageThrows := false, saveThrows := false }).feed.countP
      (fun n => n.msgType = "error") = 1 ∧
    (generateAdvancedPDFReport 7
        { chartCaptureFails := [true, true, true, true], coverThrows := false,
          analyticsPageThrows := false, customersPageThrows := false,
          inventoryPageThrows := false, insightsPageThrows := false,
          saveThrows := false }).artifactSaved = true ∧
    (generateAdvancedPDFReport 7
        { chartCaptureFails := [true, true, true, true], coverThrows := false,
          analyticsPageThrows := false, customersPageThrows := false,
          inventoryPageThrows := false, insightsPageThrows := false,
          saveThrows := false }).progressVisible = false ∧
    (generateAdvancedPDFReport 7
        { chartCaptureFails := [true, true, true, true], coverThrows := false,
          analyticsPageThrows := false, customersPageThrows := false,
          inventoryPageThrows := false, insightsPageThrows := false,
          saveThrows := false }).feed.countP (fun n => n.msgType = "success") = 1 :=
  report_pipeline_failure_semantics 7
    { chartCaptureFails := [], coverThrows := true, analyticsPageThrows := false,
      customersPageThrows := false, inventoryPageThrows := false,
      insightsPageThrows := false, saveThrows := false } (by decide)
    { chartCaptureFails := [true, true, true, true], coverThrows := false,
      analyticsPageThrows := false, customersPageThrows := false,
      inventoryPageThrows := false, insightsPageThrows := false,
      saveThrows := false } (by decide)

/-- Claim C9 counterexample: the mock generators read the random
stream, so two invocations whose draws differ return different
collections — here the stock draws 0 versus 1 (both possible values
of floor(random*50)) and phone draws 0 versus 1. -/
theorem mockGenerators_not_deterministic :
    generateMockInventory 0 (fun _ => 0) (fun _ => 0) (fun _ => false) ≠
      generateMockInventory 0 (fun _ => 1) (fun _ => 0) (fun _ => false) ∧
    generateMockCustomers (fun _ => 0) (fun _ => 0) (fun _ => 0) (fun _ => 0) (fun _ => 0) ≠
      generateMockCustomers (fun _ => 1) (fun _ => 0) (fun _ => 0) (fun _ => 0) (fun _ => 0) := by
  decide

/-- Claim C9 (amended): the mock generators are randomized, not
deterministic — the stock, price, status, phone, value and date
fields vary with the random draws — but the shape is deterministic:
both generators always return fixed-length collections (20 inventory
items, 15 customers) whose identity fields (id, model, brand; id,
name, email, location, avatar) are identical across any two
invocations, whatever the draws. -/
theorem mockGenerators_shape_deterministic
    (n n2 : Nat) (s s2 p p2 : Nat → Nat) (l l2 : Nat → Bool)
    (a a2 b b2 c c2 d d2 e e2 : Nat → Nat) :
    (generateMockInventory n s p l).length = 20 ∧
    (generateMockInventory n s p l).map (fun it => (it.id, it.model, it.brand)) =
      (generateMockInventory n2 s2 p2 l2).map (fun it => (it.id, it.model, it.brand)) ∧
    (generateMockCustomers a b c d e).length = 15 ∧
    (generateMockCustomers a b c d e).map
        (fun cu => (cu.id, cu.name, cu.email, cu.location, cu.avatar)) =
      (generateMockCustomers a2 b2 c2 d2 e2).map
        (fun cu => (cu.id, cu.name, cu.email, cu.location, cu.avatar)) := by
  refine ⟨?_, ?_, ?_, ?_⟩ <;>
    simp [generateMockInventory, generateMockCustomers, List.map_map, Function.comp]

/-- Witness for the amended C9 theorem at concrete draw streams. -/
theorem mockGenerators_shape_deterministic_witness :
    (generateMockInventory 0 (fun _ => 0) (fun _ => 0) (fun _ => false)).length = 20 :=
  (mockGenerators_shape_deterministic 0 1 (fun _ => 0) (fun _ => 1) (fun _ => 0)
    (fun _ => 1) (fun _ => false) (fun _ => true) (fun _ => 0) (fun _ => 1) (fun _ => 0)
    (fun _ => 1) (fun _ => 0) (fun _ => 1) (fun _ => 0) (fun _ => 1) (fun _ => 0)
    (fun _ => 1)).1

/-- Claim C10: both the "dark mode" and "light mode" trigger phrases
are bound to the same toggleTheme action, and toggleTheme flips the
current theme — so the "light mode" command spoken in light mode
switches the session to dark mode (and in dark mode a "dark mode"
command switches to light). -/
theorem darkAndLightMode_both_toggle :
    ("dark mode", VoiceAction.toggleTheme) ∈ voiceCommands ∧
    ("light mode", VoiceAction.toggleTheme) ∈ voiceCommands ∧
    onVoiceResult "light mode" = Dispatch.command "light mode" VoiceAction.toggleTheme ∧
    onVoiceResult "dark mode" = Dispatch.command "dark mode" VoiceAction.toggleTheme ∧
    (toggleTheme 0 { isDarkMode := false, feed := [] }).isDarkMode = true ∧
    (toggleTheme 0 { isDarkMode := true, feed := [] }).isDarkMode = false := by
  decide

end VoiceBotApp
